import Mathlib

/-!
Verification development for the TCAN1463-Q1 CAN-transceiver behavioral
simulator.  The definitions below are a shallow embedding of the C sources:
pure C functions become Lean functions, mutation becomes explicit state
passing, `uint64_t` becomes `Nat` with explicit wrap-around arithmetic where
the C code can overflow, `double` becomes `ℚ` (all voltage constants in the
program are exact small rationals), and fallible operations return `Option`
or a success flag.  File-scope and function-scope `static` variables of the
C sources are modelled as an explicit `Globals` record threaded through the
calls that touch them.
-/

namespace TCAN

/-! ### Machine-integer helpers (uint64 semantics) -/

/-- Modulus of `uint64_t`. -/
def U64MOD : Nat := 18446744073709551616

/-- `UINT64_MAX`, used by the sources as a sentinel for "timer not running". -/
def UINT64MAX : Nat := 18446744073709551615

/-- Wrap-around addition of two `uint64_t` values. -/
def add64 (a b : Nat) : Nat := (a + b) % U64MOD

/-- Wrap-around subtraction of two `uint64_t` values. -/
def sub64 (a b : Nat) : Nat := (a + (U64MOD - b % U64MOD)) % U64MOD

/-! ### Enumerations (tcan1463q1_types.h) -/

/-- `PinState` from tcan1463q1_types.h. -/
inductive PinSt where
  | low
  | high
  | highZ
  | analog
  deriving DecidableEq

/-- `PinType` from tcan1463q1_types.h (14 named pins; `vios` stands for the
I/O-supply pin, called VIO in the sources). -/
inductive PinId where
  | txd
  | rxd
  | en
  | nstb
  | nfault
  | wake
  | inh
  | inhMask
  | canh
  | canl
  | vsup
  | vcc
  | vios
  | gnd
  deriving DecidableEq

/-- `OperatingMode` from tcan1463q1_types.h. -/
inductive OpMode where
  | normal
  | silent
  | standby
  | goToSleep
  | sleep
  | off
  deriving DecidableEq, Fintype

/-- `BusState` from tcan1463q1_types.h. -/
inductive BusSt where
  | dominant
  | recessive
  | indeterminate
  deriving DecidableEq

/-- `CANTransceiverState` from tcan1463q1_types.h. -/
inductive CanSt where
  | off
  | autonomousInactive
  | autonomousActive
  | active
  deriving DecidableEq

/-- `BusBiasState` from tcan1463q1_types.h. -/
inductive BiasSt where
  | off
  | autonomousInactive
  | autonomousActive
  | active
  deriving DecidableEq

/-- `WUPState` from tcan1463q1_types.h. -/
inductive WupSt where
  | idle
  | firstDominant
  | recessivePhase
  | secondDominant
  | complete
  deriving DecidableEq

/-! ### Pin store (pin_manager.cpp) -/

/-- `Pin` struct from tcan1463q1_types.h. -/
structure Pin where
  state : PinSt
  voltage : ℚ
  is_input : Bool
  is_output : Bool
  min_voltage : ℚ
  max_voltage : ℚ
  deriving DecidableEq

/-- The 14-entry pin array of `PinManager` (and of `TCAN1463Q1Simulator`),
one named field per `PinType` index. -/
structure Pins where
  txd : Pin
  rxd : Pin
  en : Pin
  nstb : Pin
  nfault : Pin
  wake : Pin
  inh : Pin
  inhMask : Pin
  canh : Pin
  canl : Pin
  vsup : Pin
  vcc : Pin
  vios : Pin
  gnd : Pin
  deriving DecidableEq

/-- Array indexing `manager->pins[pin_type]`. -/
def Pins.get (ps : Pins) : PinId → Pin
  | .txd => ps.txd
  | .rxd => ps.rxd
  | .en => ps.en
  | .nstb => ps.nstb
  | .nfault => ps.nfault
  | .wake => ps.wake
  | .inh => ps.inh
  | .inhMask => ps.inhMask
  | .canh => ps.canh
  | .canl => ps.canl
  | .vsup => ps.vsup
  | .vcc => ps.vcc
  | .vios => ps.vios
  | .gnd => ps.gnd

/-- Array store `manager->pins[pin_type] = p`. -/
def Pins.set (ps : Pins) : PinId → Pin → Pins
  | .txd, p => { ps with txd := p }
  | .rxd, p => { ps with rxd := p }
  | .en, p => { ps with en := p }
  | .nstb, p => { ps with nstb := p }
  | .nfault, p => { ps with nfault := p }
  | .wake, p => { ps with wake := p }
  | .inh, p => { ps with inh := p }
  | .inhMask, p => { ps with inhMask := p }
  | .canh, p => { ps with canh := p }
  | .canl, p => { ps with canl := p }
  | .vsup, p => { ps with vsup := p }
  | .vcc, p => { ps with vcc := p }
  | .vios, p => { ps with vios := p }
  | .gnd, p => { ps with gnd := p }

/-- `pin_validate_voltage` (pin_manager.cpp lines 83-98): digital states with
voltage exactly 0.0 are exempted; the exemption reads the pin's CURRENT
stored state.  Otherwise the static range is checked. -/
def pin_validate_voltage (pin : Pin) (voltage : ℚ) : Bool :=
  if pin.state ≠ PinSt.analog ∧ voltage = 0 then
    true
  else if voltage < pin.min_voltage ∨ voltage > pin.max_voltage then
    false
  else
    true

/-- `pin_set_value` (pin_manager.cpp lines 58-69): `none` models the C
function returning false and leaving the pin untouched. -/
def pin_set_value (pin : Pin) (st : PinSt) (voltage : ℚ) : Option Pin :=
  if pin_validate_voltage pin voltage then
    some { pin with state := st, voltage := voltage }
  else
    none

/-- A `pin_set_value` call whose boolean result is ignored by the caller
(the simulator step does this for every output-pin write). -/
def pinSetOr (pin : Pin) (st : PinSt) (voltage : ℚ) : Pin :=
  (pin_set_value pin st voltage).getD pin

/-- `pin_manager_set_pin` (pin_manager.cpp lines 143-157): rejects pins
without input capability, then defers to `pin_set_value`. -/
def pin_manager_set_pin (ps : Pins) (pt : PinId) (st : PinSt) (voltage : ℚ) :
    Option Pins :=
  let pin := ps.get pt
  if pin.is_input then
    (pin_set_value pin st voltage).map (ps.set pt)
  else
    none

/-- Helper building one pin of `pin_manager_init`: `pin_init` gives state LOW
and voltage 0, then the init routine overrides state/voltage per pin. -/
def mkPin (st : PinSt) (v : ℚ) (isIn isOut : Bool) (lo hi : ℚ) : Pin :=
  { state := st, voltage := v, is_input := isIn, is_output := isOut,
    min_voltage := lo, max_voltage := hi }

/-- `pin_manager_init` (pin_manager.cpp lines 100-141) combined with the
`pin_voltage_ranges` and `pin_directions` tables at the top of that file:
the resulting value of every pin after initialization. -/
def initPins : Pins :=
  { txd := mkPin .high 0 true false 0 (11/2)
    rxd := mkPin .high 0 false true 0 (11/2)
    en := mkPin .low 0 true false 0 (11/2)
    nstb := mkPin .low 0 true false 0 (11/2)
    nfault := mkPin .high 0 false true 0 (11/2)
    wake := mkPin .low 0 true false 0 (11/2)
    inh := mkPin .highZ 0 false true 0 42
    inhMask := mkPin .low 0 true false 0 (11/2)
    canh := mkPin .highZ 0 true true (-27) 42
    canl := mkPin .highZ 0 true true (-27) 42
    vsup := mkPin .analog 12 true false (9/2) 42
    vcc := mkPin .analog 5 true false (9/2) (11/2)
    vios := mkPin .analog (33/10) true false (33/20) (11/2)
    gnd := mkPin .analog 0 true false 0 0 }

/-! ### Mode controller (c_api.cpp, mode_controller part) -/

/-- `ModeState` struct from tcan1463q1_types.h. -/
structure ModeState where
  current_mode : OpMode
  previous_mode : OpMode
  mode_entry_time : Nat
  wakerq_flag : Bool
  deriving DecidableEq

/-- `TSILENCE_NS` of the mode controller: `S_TO_NS(TSILENCE_MIN_S)` with
`TSILENCE_MIN_S = 0.6`; the double product `0.6 * 1e9` rounds to exactly
`600000000.0` before the integer cast. -/
def MODE_TSILENCE_NS : Nat := 600000000

/-- The `valid_transitions` static table (c_api.cpp lines 727-760). -/
def valid_transitions : List (OpMode × OpMode) :=
  [ (.off, .normal), (.off, .silent),
    (.normal, .silent), (.silent, .normal),
    (.normal, .standby), (.silent, .standby),
    (.normal, .goToSleep), (.silent, .goToSleep),
    (.goToSleep, .sleep),
    (.standby, .normal), (.standby, .silent),
    (.sleep, .standby),
    (.normal, .off), (.silent, .off), (.standby, .off),
    (.goToSleep, .off), (.sleep, .off) ]

/-- `mode_controller_can_transition` (c_api.cpp lines 776-790). -/
def mode_controller_can_transition (f t : OpMode) : Bool :=
  if f = t then
    true
  else
    valid_transitions.any (fun p => p.1 = f ∧ p.2 = t)

/-- `determine_target_mode` (c_api.cpp lines 796-837). -/
def determine_target_mode (current_mode : OpMode) (en_high nstb_high : Bool)
    (vsup_valid wakerq_set : Bool) (time_in_mode : Nat) : OpMode :=
  if ¬ vsup_valid then
    .off
  else if current_mode = .goToSleep ∧ time_in_mode ≥ MODE_TSILENCE_NS then
    .sleep
  else if nstb_high then
    if en_high then .normal else .silent
  else if wakerq_set then
    .standby
  else if current_mode = .sleep then
    .sleep
  else
    .goToSleep

/-- `mode_controller_update` (c_api.cpp lines 839-877); returns the updated
state together with the returned current mode. -/
def mode_controller_update (st : ModeState) (en_high nstb_high : Bool)
    (vsup_valid wakerq_set : Bool) (current_time : Nat) :
    ModeState × OpMode :=
  let time_in_mode : Nat :=
    if current_time ≥ st.mode_entry_time then
      current_time - st.mode_entry_time
    else 0
  let target_mode :=
    determine_target_mode st.current_mode en_high nstb_high vsup_valid
      wakerq_set time_in_mode
  let st' :=
    if target_mode ≠ st.current_mode then
      if mode_controller_can_transition st.current_mode target_mode then
        { st with previous_mode := st.current_mode,
                  current_mode := target_mode,
                  mode_entry_time := current_time }
      else st
    else st
  (st', st'.current_mode)

/-- `mode_controller_init` (c_api.cpp lines 764-774). -/
def modeInit : ModeState :=
  { current_mode := .off, previous_mode := .off, mode_entry_time := 0,
    wakerq_flag := false }

/-! ### Fault detector (fault_detector.cpp)

`fault_detector_check_cbf` keeps a function-local `static BusState
prev_bus_state` shared by every call in the process; it is passed in and out
explicitly here (see `Globals` below for the full static-state record). -/

/-- `FaultState` struct from tcan1463q1_types.h. -/
structure FaultState where
  txdclp_flag : Bool
  txddto_flag : Bool
  txdrxd_flag : Bool
  candom_flag : Bool
  tsd_flag : Bool
  cbf_flag : Bool
  txd_dominant_start : Nat
  bus_dominant_start : Nat
  cbf_transition_count : Nat
  deriving DecidableEq

/-- `MS_TO_NS(TTXDDTO_MIN_MS)`: the double product `1.2 * 1e6` rounds to
exactly `1200000.0` before the integer cast. -/
def TTXDDTO_MIN_NS : Nat := 1200000

/-- `MS_TO_NS(TBUSDOM_MIN_MS)`: `1.4 * 1e6` rounds to exactly `1400000.0`. -/
def TBUSDOM_MIN_NS : Nat := 1400000

/-- `TSDR_CELSIUS` (165 degrees C). -/
def TSDR_CELSIUS : ℚ := 165

/-- `fault_detector_init` (fault_detector.cpp lines 10-16). -/
def faultInit : FaultState :=
  { txdclp_flag := false, txddto_flag := false, txdrxd_flag := false,
    candom_flag := false, tsd_flag := false, cbf_flag := false,
    txd_dominant_start := UINT64MAX, bus_dominant_start := UINT64MAX,
    cbf_transition_count := 0 }

/-- `fault_detector_check_txdclp` (fault_detector.cpp lines 18-30). -/
def fault_detector_check_txdclp (st : FaultState) (txd_low : Bool)
    (entering_mode : OpMode) : FaultState :=
  if entering_mode = .normal ∧ txd_low then
    { st with txdclp_flag := true }
  else st

/-- `fault_detector_check_txddto` (fault_detector.cpp lines 32-58). -/
def fault_detector_check_txddto (st : FaultState) (txd_low : Bool)
    (current_time : Nat) : FaultState :=
  if txd_low then
    if st.txd_dominant_start = UINT64MAX then
      { st with txd_dominant_start := current_time }
    else
      if sub64 current_time st.txd_dominant_start ≥ TTXDDTO_MIN_NS then
        { st with txddto_flag := true }
      else st
  else
    { st with txd_dominant_start := UINT64MAX }

/-- `fault_detector_check_txdrxd` (fault_detector.cpp lines 60-87).  Note
that it shares the `txd_dominant_start` timestamp field with
`fault_detector_check_txddto`. -/
def fault_detector_check_txdrxd (st : FaultState) (txd_low rxd_low : Bool)
    (current_time : Nat) : FaultState :=
  let shorted := txd_low = rxd_low
  if shorted then
    if st.txd_dominant_start = UINT64MAX then
      { st with txd_dominant_start := current_time }
    else
      if sub64 current_time st.txd_dominant_start ≥ TTXDDTO_MIN_NS then
        { st with txdrxd_flag := true }
      else st
  else
    { st with txd_dominant_start := UINT64MAX }

/-- `fault_detector_check_candom` (fault_detector.cpp lines 89-112). -/
def fault_detector_check_candom (st : FaultState) (bus_state : BusSt)
    (current_time : Nat) : FaultState :=
  if bus_state = .dominant then
    if st.bus_dominant_start = UINT64MAX then
      { st with bus_dominant_start := current_time }
    else
      if sub64 current_time st.bus_dominant_start ≥ TBUSDOM_MIN_NS then
        { st with candom_flag := true }
      else st
  else
    { st with bus_dominant_start := UINT64MAX }

/-- `fault_detector_check_tsd` (fault_detector.cpp lines 114-129). -/
def fault_detector_check_tsd (st : FaultState) (tj_temperature : ℚ) :
    FaultState :=
  if tj_temperature ≥ TSDR_CELSIUS then
    { st with tsd_flag := true }
  else
    { st with tsd_flag := false }

/-- `fault_detector_check_cbf` (fault_detector.cpp lines 131-159).  The
second argument/result is the function-local static `prev_bus_state`
(program-start value `BUS_STATE_RECESSIVE`); note the early return skips the
static update when the mode is not Normal/Silent. -/
def fault_detector_check_cbf (st : FaultState) (bus_state : BusSt)
    (mode : OpMode) (prev_bus_state : BusSt) : FaultState × BusSt :=
  if mode ≠ .normal ∧ mode ≠ .silent then
    ({ st with cbf_transition_count := 0 }, prev_bus_state)
  else
    let st' :=
      if prev_bus_state = .dominant ∧ bus_state = .recessive then
        let c := st.cbf_transition_count + 1
        if c ≥ 4 then
          { st with cbf_transition_count := c, cbf_flag := true }
        else
          { st with cbf_transition_count := c }
      else st
    (st', bus_state)

/-- `fault_detector_update` (fault_detector.cpp lines 161-178). -/
def fault_detector_update (st : FaultState) (txd_low rxd_low : Bool)
    (bus_state : BusSt) (tj_temperature : ℚ) (current_time : Nat)
    (mode : OpMode) (prev_bus_state : BusSt) : FaultState × BusSt :=
  let st := fault_detector_check_txddto st txd_low current_time
  let st := fault_detector_check_txdrxd st txd_low rxd_low current_time
  let st := fault_detector_check_candom st bus_state current_time
  let st := fault_detector_check_tsd st tj_temperature
  fault_detector_check_cbf st bus_state mode prev_bus_state

/-- `fault_detector_has_any_fault` (fault_detector.cpp lines 180-189). -/
def fault_detector_has_any_fault (st : FaultState) : Bool :=
  st.txdclp_flag || st.txddto_flag || st.txdrxd_flag || st.candom_flag ||
    st.tsd_flag || st.cbf_flag

/-- `fault_detector_get_nfault_state` (fault_detector.cpp lines 191-197). -/
def fault_detector_get_nfault_state (st : FaultState) : Bool :=
  fault_detector_has_any_fault st

/-- `fault_detector_should_disable_driver` (fault_detector.cpp lines
199-213). -/
def fault_detector_should_disable_driver (st : FaultState) : Bool :=
  st.txdclp_flag || st.txddto_flag || st.txdrxd_flag || st.tsd_flag

/-! ### CAN transceiver (can_transceiver part of pin_manager.cpp)

The file keeps a file-scope `static uint64_t last_bus_activity_time` shared
by every transceiver in the process; it is passed in and out explicitly. -/

/-- `CANTransceiver` struct from tcan1463q1_types.h. -/
structure CANTransceiver where
  state : CanSt
  driver_enabled : Bool
  receiver_enabled : Bool
  canh_voltage : ℚ
  canl_voltage : ℚ
  rxd_output : Bool
  rxd_pending : Bool
  rxd_pending_value : Bool
  rxd_update_time : Nat
  deriving DecidableEq

/-- `VDIFF_DOMINANT_THRESHOLD` (0.9 V). -/
def VDIFF_DOMINANT_THRESHOLD : ℚ := 9/10

/-- `VDIFF_RECESSIVE_THRESHOLD` (0.5 V). -/
def VDIFF_RECESSIVE_THRESHOLD : ℚ := 1/2

/-- `CANH_DOMINANT_VOLTAGE` (3.5 V). -/
def CANH_DOMINANT_VOLTAGE : ℚ := 7/2

/-- `CANL_DOMINANT_VOLTAGE` (1.5 V). -/
def CANL_DOMINANT_VOLTAGE : ℚ := 3/2

/-- `CANH_RECESSIVE_VOLTAGE` = `CANL_RECESSIVE_VOLTAGE` (2.5 V). -/
def CAN_RECESSIVE_VOLTAGE : ℚ := 5/2

/-- `TSILENCE_NS` of the transceiver state machine (1 second). -/
def CAN_TSILENCE_NS : Nat := 1000000000

/-- `TPROP_LOOP1_MIN_NS` (tcan1463q1_types.h line 222). -/
def TPROP_LOOP1_MIN_NS : Nat := 100

/-- `TPROP_LOOP1_MAX_NS` (tcan1463q1_types.h line 223). -/
def TPROP_LOOP1_MAX_NS : Nat := 190

/-- `TPROP_LOOP2_MIN_NS` (tcan1463q1_types.h line 224). -/
def TPROP_LOOP2_MIN_NS : Nat := 110

/-- `TPROP_LOOP2_MAX_NS` (tcan1463q1_types.h line 225). -/
def TPROP_LOOP2_MAX_NS : Nat := 190

/-- `can_transceiver_get_bus_state` (pin_manager.cpp lines 239-247). -/
def can_transceiver_get_bus_state (vdiff : ℚ) : BusSt :=
  if vdiff ≥ VDIFF_DOMINANT_THRESHOLD then .dominant
  else if vdiff ≤ VDIFF_RECESSIVE_THRESHOLD then .recessive
  else .indeterminate

/-- `can_transceiver_drive_bus` (pin_manager.cpp lines 249-272); returns the
updated transceiver together with the `*canh`/`*canl` output parameters. -/
def can_transceiver_drive_bus (tr : CANTransceiver) (dominant : Bool) :
    CANTransceiver × ℚ × ℚ :=
  if dominant ∧ tr.driver_enabled then
    ({ tr with canh_voltage := CANH_DOMINANT_VOLTAGE,
               canl_voltage := CANL_DOMINANT_VOLTAGE },
      CANH_DOMINANT_VOLTAGE, CANL_DOMINANT_VOLTAGE)
  else
    ({ tr with canh_voltage := CAN_RECESSIVE_VOLTAGE,
               canl_voltage := CAN_RECESSIVE_VOLTAGE },
      CAN_RECESSIVE_VOLTAGE, CAN_RECESSIVE_VOLTAGE)

/-- `can_transceiver_update_rxd` (pin_manager.cpp lines 274-342).  The
propagation delays `(TPROP_LOOP1_MIN_NS + TPROP_LOOP1_MAX_NS) / 2 = 145`
and `(TPROP_LOOP2_MIN_NS + TPROP_LOOP2_MAX_NS) / 2 = 150` are computed
inline as in the source. -/
def can_transceiver_update_rxd (tr : CANTransceiver) (bus_state : BusSt)
    (current_time schedule_time : Nat) : CANTransceiver :=
  if ¬ tr.receiver_enabled then
    { tr with rxd_output := true, rxd_pending := false }
  else
    let tr :=
      if tr.rxd_pending ∧ current_time ≥ tr.rxd_update_time then
        { tr with rxd_output := tr.rxd_pending_value, rxd_pending := false }
      else tr
    match bus_state with
    | .indeterminate => tr
    | bs =>
      let target_rxd : Bool := bs ≠ .dominant
      let needs_update := target_rxd ≠ tr.rxd_output
      let pending_is_stale :=
        tr.rxd_pending ∧ tr.rxd_pending_value ≠ target_rxd
      if needs_update ∧ (¬ tr.rxd_pending ∨ pending_is_stale) then
        let prop_delay : Nat :=
          if target_rxd = false then
            (TPROP_LOOP1_MIN_NS + TPROP_LOOP1_MAX_NS) / 2
          else
            (TPROP_LOOP2_MIN_NS + TPROP_LOOP2_MAX_NS) / 2
        let update_time := add64 schedule_time prop_delay
        if update_time ≤ current_time then
          { tr with rxd_output := target_rxd, rxd_pending := false }
        else
          { tr with rxd_pending := true, rxd_pending_value := target_rxd,
                    rxd_update_time := update_time }
      else tr

/-- `can_transceiver_update_state_machine` (pin_manager.cpp lines 344-440).
The extra `Nat` argument/result is the file-scope static
`last_bus_activity_time`. -/
def can_transceiver_update_state_machine (tr : CANTransceiver)
    (mode : OpMode) (bus_state : BusSt) (vsup_valid : Bool)
    (current_time : Nat) (last_bus_activity_time : Nat) :
    CANTransceiver × Nat :=
  let lba :=
    if bus_state = BusSt.dominant then current_time else last_bus_activity_time
  let lba := if lba = 0 then current_time else lba
  let (st, lba) :=
    match tr.state with
    | .off =>
        (if vsup_valid then CanSt.autonomousInactive else CanSt.off, lba)
    | .autonomousInactive =>
        if ¬ vsup_valid then (CanSt.off, lba)
        else if mode = OpMode.normal ∨ mode = OpMode.silent then (CanSt.active, lba)
        else if bus_state = BusSt.dominant then
          (CanSt.autonomousActive, current_time)
        else (CanSt.autonomousInactive, lba)
    | .autonomousActive =>
        if ¬ vsup_valid then (CanSt.off, lba)
        else if mode = OpMode.normal ∨ mode = OpMode.silent then (CanSt.active, lba)
        else if sub64 current_time lba > CAN_TSILENCE_NS then
          (CanSt.autonomousInactive, lba)
        else (CanSt.autonomousActive, lba)
    | .active =>
        if ¬ vsup_valid then (CanSt.off, lba)
        else if mode ≠ OpMode.normal ∧ mode ≠ OpMode.silent then
          if bus_state = BusSt.dominant ∨ sub64 current_time lba ≤ CAN_TSILENCE_NS
          then (CanSt.autonomousActive, lba)
          else (CanSt.autonomousInactive, lba)
        else (CanSt.active, lba)
  let tr :=
    match st with
    | .off =>
        { tr with state := st, driver_enabled := false,
                  receiver_enabled := false }
    | .autonomousInactive =>
        { tr with state := st, driver_enabled := false,
                  receiver_enabled := true }
    | .autonomousActive =>
        { tr with state := st, driver_enabled := false,
                  receiver_enabled := true }
    | .active =>
        if mode = OpMode.normal then
          { tr with state := st, driver_enabled := true,
                    receiver_enabled := true }
        else if mode = OpMode.silent then
          { tr with state := st, driver_enabled := false,
                    receiver_enabled := true }
        else
          { tr with state := st, driver_enabled := false,
                    receiver_enabled := false }
  (tr, lba)

/-- `can_transceiver_update` (pin_manager.cpp lines 442-473): computes the
bus state from the given voltages, runs the state machine with
`vsup_valid := (mode != MODE_OFF)`, then drives the bus (the driven output
parameters are dropped by the caller; the transceiver's stored
`canh_voltage`/`canl_voltage` are updated). -/
def can_transceiver_update (tr : CANTransceiver) (mode : OpMode)
    (txd_low : Bool) (canh_voltage canl_voltage : ℚ) (current_time : Nat)
    (last_bus_activity_time : Nat) : CANTransceiver × Nat :=
  let vdiff := canh_voltage - canl_voltage
  let bus_state := can_transceiver_get_bus_state vdiff
  let vsup_valid : Bool := mode ≠ .off
  let (tr, lba) :=
    can_transceiver_update_state_machine tr mode bus_state vsup_valid
      current_time last_bus_activity_time
  let (tr, _, _) := can_transceiver_drive_bus tr txd_low
  (tr, lba)

/-- `can_transceiver_init` (pin_manager.cpp lines 223-237); also resets the
static `last_bus_activity_time` to 0 (second result). -/
def canInit : CANTransceiver × Nat :=
  ({ state := .off, driver_enabled := false, receiver_enabled := false,
     canh_voltage := 0, canl_voltage := 0, rxd_output := true,
     rxd_pending := false, rxd_pending_value := true,
     rxd_update_time := 0 }, 0)

/-! ### Power monitor (part listed as power_monitor.c) -/

/-- `PowerState` struct from tcan1463q1_types.h (`vioV` is the stored VIO
sample). -/
structure PowerState where
  vsup : ℚ
  vcc : ℚ
  vioV : ℚ
  uvsup_flag : Bool
  uvcc_flag : Bool
  uvio_flag : Bool
  pwron_flag : Bool
  uvcc_start_time : Nat
  uvio_start_time : Nat
  deriving DecidableEq

/-- `UVSUP_FALLING_MIN` (3.5 V). -/
def UVSUP_FALLING_MIN : ℚ := 7/2

/-- `UVSUP_RISING_MIN` (3.85 V). -/
def UVSUP_RISING_MIN : ℚ := 77/20

/-- `UVCC_FALLING_MAX` (3.9 V). -/
def UVCC_FALLING_MAX : ℚ := 39/10

/-- `UVCC_RISING_MIN` (4.1 V). -/
def UVCC_RISING_MIN : ℚ := 41/10

/-- `UVIO_FALLING_MAX` (1.25 V). -/
def UVIO_FALLING_MAX : ℚ := 5/4

/-- `UVIO_RISING_MIN` (1.4 V). -/
def UVIO_RISING_MIN : ℚ := 7/5

/-- `MS_TO_NS(TUV_MIN_MS)` with `TUV_MIN_MS = 100` (integer arithmetic). -/
def TUV_MIN_NS : Nat := 100000000

/-- `power_monitor_init`. -/
def powerInit : PowerState :=
  { vsup := 12, vcc := 5, vioV := 33/10,
    uvsup_flag := false, uvcc_flag := false, uvio_flag := false,
    pwron_flag := false,
    uvcc_start_time := UINT64MAX, uvio_start_time := UINT64MAX }

/-- `power_monitor_update`. -/
def power_monitor_update (st : PowerState) (vsup vcc vio : ℚ)
    (current_time : Nat) : PowerState :=
  let prev_vcc := st.vcc
  let prev_vio := st.vioV
  let st := { st with vsup := vsup, vcc := vcc, vioV := vio }
  -- VSUP monitoring: no filter time, asymmetric hysteresis
  let st :=
    if !st.uvsup_flag && decide (vsup ≤ UVSUP_FALLING_MIN) then
      { st with uvsup_flag := true }
    else if st.uvsup_flag && decide (vsup > UVSUP_RISING_MIN) then
      { st with uvsup_flag := false, pwron_flag := true }
    else st
  -- VCC monitoring with filter timer
  let st :=
    if vcc < UVCC_FALLING_MAX then
      let start :=
        if st.uvcc_start_time = UINT64MAX then current_time
        else st.uvcc_start_time
      let st := { st with uvcc_start_time := start }
      if decide (sub64 current_time start ≥ TUV_MIN_NS) && !st.uvcc_flag then
        { st with uvcc_flag := true }
      else st
    else if vcc > UVCC_RISING_MIN then
      { st with uvcc_flag := false, uvcc_start_time := UINT64MAX }
    else
      if vcc > prev_vcc then { st with uvcc_start_time := UINT64MAX } else st
  -- VIO monitoring with filter timer
  let st :=
    if vio < UVIO_FALLING_MAX then
      let start :=
        if st.uvio_start_time = UINT64MAX then current_time
        else st.uvio_start_time
      let st := { st with uvio_start_time := start }
      if decide (sub64 current_time start ≥ TUV_MIN_NS) && !st.uvio_flag then
        { st with uvio_flag := true }
      else st
    else if vio > UVIO_RISING_MIN then
      { st with uvio_flag := false, uvio_start_time := UINT64MAX }
    else
      if vio > prev_vio then { st with uvio_start_time := UINT64MAX } else st
  st

/-- `power_monitor_is_vsup_valid`. -/
def power_monitor_is_vsup_valid (st : PowerState) : Bool := ¬ st.uvsup_flag

/-- `power_monitor_clear_pwron_flag`. -/
def power_monitor_clear_pwron_flag (st : PowerState) : PowerState :=
  { st with pwron_flag := false }

/-! ### Wake handler (part listed as wake_handler.c) -/

/-- `WakeState` struct from tcan1463q1_types.h. -/
structure WakeState where
  wakerq_flag : Bool
  wakesr_flag : Bool
  wake_source_local : Bool
  wup_state : WupSt
  wup_phase_start : Nat
  wup_timeout_start : Nat
  wake_pin_prev_state : Bool
  deriving DecidableEq

/-- `US_TO_NS(TWK_FILTER_MIN_US)` with `TWK_FILTER_MIN_US = 0.5` (exact). -/
def TWK_FILTER_MIN_NS : Nat := 500

/-- `MS_TO_NS(TWK_TIMEOUT_MAX_MS)` with `TWK_TIMEOUT_MAX_MS = 2.0` (exact). -/
def TWK_TIMEOUT_MAX_NS : Nat := 2000000

/-- `wake_handler_init`. -/
def wakeInit : WakeState :=
  { wakerq_flag := false, wakesr_flag := false, wake_source_local := false,
    wup_state := .idle, wup_phase_start := UINT64MAX,
    wup_timeout_start := UINT64MAX, wake_pin_prev_state := false }

/-- The state-machine reset performed at several places of the wake
handler: back to idle with sentinel timers. -/
def wupReset (st : WakeState) : WakeState :=
  { st with wup_state := .idle, wup_phase_start := UINT64MAX,
            wup_timeout_start := UINT64MAX }

/-- `wake_handler_process_wup`. -/
def wake_handler_process_wup (st : WakeState) (bus_state : BusSt)
    (current_time : Nat) : WakeState :=
  -- overall-timeout check with early return
  if st.wup_timeout_start ≠ UINT64MAX ∧ st.wup_state ≠ WupSt.idle ∧
      st.wup_state ≠ WupSt.complete ∧
      sub64 current_time st.wup_timeout_start ≥ TWK_TIMEOUT_MAX_NS then
    wupReset st
  else
    match st.wup_state with
    | .idle =>
        if bus_state = .dominant then
          { st with wup_state := .firstDominant,
                    wup_phase_start := current_time,
                    wup_timeout_start := current_time }
        else st
    | .firstDominant =>
        if bus_state = .dominant then
          if sub64 current_time st.wup_phase_start ≥ TWK_FILTER_MIN_NS then
            { st with wup_state := .recessivePhase,
                      wup_phase_start := current_time }
          else st
        else wupReset st
    | .recessivePhase =>
        if bus_state = .recessive then
          if sub64 current_time st.wup_phase_start ≥ TWK_FILTER_MIN_NS then
            { st with wup_state := .secondDominant,
                      wup_phase_start := current_time }
          else st
        else if bus_state = .dominant then
          if sub64 current_time st.wup_phase_start ≥ TWK_FILTER_MIN_NS then
            { st with wup_state := .secondDominant,
                      wup_phase_start := current_time }
          else wupReset st
        else st
    | .secondDominant =>
        if bus_state = .dominant then
          if sub64 current_time st.wup_phase_start ≥ TWK_FILTER_MIN_NS then
            { st with wakerq_flag := true, wakesr_flag := true,
                      wake_source_local := false, wup_state := .complete,
                      wup_phase_start := UINT64MAX,
                      wup_timeout_start := UINT64MAX }
          else st
        else wupReset st
    | .complete => st

/-- `wake_handler_process_lwu`. -/
def wake_handler_process_lwu (st : WakeState) (wake_pin_high : Bool)
    (_current_time : Nat) : WakeState :=
  let edge_detected := wake_pin_high ≠ st.wake_pin_prev_state
  if edge_detected then
    { (wupReset st) with wakerq_flag := true, wakesr_flag := true,
                         wake_source_local := true }
  else st

/-- `wake_handler_update`. -/
def wake_handler_update (st : WakeState) (bus_state : BusSt)
    (wake_pin_high : Bool) (mode : OpMode) (current_time : Nat) :
    WakeState :=
  let st :=
    if mode = OpMode.standby ∨ mode = OpMode.sleep then
      let st := wake_handler_process_wup st bus_state current_time
      if mode = OpMode.sleep then
        wake_handler_process_lwu st wake_pin_high current_time
      else st
    else
      if st.wup_state ≠ WupSt.idle then wupReset st else st
  { st with wake_pin_prev_state := wake_pin_high }

/-- `wake_handler_clear_flags`: clears wake-request and resets the pattern
machine; WAKESR is deliberately not cleared. -/
def wake_handler_clear_flags (st : WakeState) : WakeState :=
  wupReset { st with wakerq_flag := false }

/-- `wake_handler_get_wakerq`. -/
def wake_handler_get_wakerq (st : WakeState) : Bool := st.wakerq_flag

/-! ### INH controller (inh_controller.c part) -/

/-- `INHController` struct (inh_controller.h). -/
structure INHController where
  inh_enabled : Bool
  inh_output_high : Bool
  wake_event_time : Nat
  pending_inh_assertion : Bool
  deriving DecidableEq

/-- `TINH_SLP_STB_NS` (100 microseconds). -/
def TINH_SLP_STB_NS : Nat := 100000

/-- `inh_controller_init`. -/
def inhInit : INHController :=
  { inh_enabled := true, inh_output_high := false, wake_event_time := 0,
    pending_inh_assertion := false }

/-- `inh_controller_update`. -/
def inh_controller_update (c : INHController) (mode : OpMode)
    (inh_mask_high wake_event : Bool) (current_time : Nat) : INHController :=
  let c := { c with inh_enabled := ¬ inh_mask_high }
  if ¬ c.inh_enabled then
    { c with inh_output_high := false, pending_inh_assertion := false }
  else
    let c :=
      if wake_event then
        { c with wake_event_time := current_time,
                 pending_inh_assertion := true }
      else c
    let c :=
      if c.pending_inh_assertion ∧
          sub64 current_time c.wake_event_time ≥ TINH_SLP_STB_NS then
        { c with pending_inh_assertion := false }
      else c
    let should_be_high : Bool :=
      match mode with
      | .normal | .silent | .standby => true
      | .sleep | .goToSleep | .off => false
    if should_be_high ∧ c.pending_inh_assertion then
      { c with inh_output_high := false }
    else
      { c with inh_output_high := should_be_high }

/-- `inh_controller_get_pin_state`: output parameters as a pair. -/
def inh_controller_get_pin_state (c : INHController) : PinSt × ℚ :=
  if ¬ c.inh_enabled ∨ ¬ c.inh_output_high then
    (.highZ, 0)
  else
    (.high, 5 - 3/4)

/-! ### Bus bias controller (bus_bias_controller.cpp) -/

/-- `BusBiasController` struct from tcan1463q1_types.h. -/
structure BusBias where
  state : BiasSt
  last_bus_activity : Nat
  deriving DecidableEq

/-- `bus_bias_controller_init`. -/
def biasInit : BusBias := { state := .off, last_bus_activity := 0 }

/-- `bus_bias_controller_update`. -/
def bus_bias_controller_update (c : BusBias) (can_state : CanSt)
    (bus_state : BusSt) (current_time : Nat) : BusBias :=
  let lba :=
    if bus_state = .dominant then current_time else c.last_bus_activity
  let lba := if lba = 0 then current_time else lba
  let st : BiasSt :=
    match can_state with
    | .off => .off
    | .autonomousInactive => .autonomousInactive
    | .autonomousActive => .autonomousActive
    | .active => .active
  { c with state := st, last_bus_activity := lba }

/-- `bus_bias_controller_get_bias`: the `*canh`/`*canl` outputs as a pair. -/
def bus_bias_controller_get_bias (c : BusBias) (vcc : ℚ) : ℚ × ℚ :=
  match c.state with
  | .off => (0, 0)
  | .autonomousInactive => (0, 0)
  | .autonomousActive => (5/2, 5/2)
  | .active => (vcc / 2, vcc / 2)

/-! ### Timing engine (timing_engine.c part) -/

/-- `TimingEngine` struct from tcan1463q1_types.h. -/
structure TimingEngine where
  current_time_ns : Nat
  last_update_ns : Nat
  deriving DecidableEq

/-- `timing_engine_init`. -/
def timingInit : TimingEngine := { current_time_ns := 0, last_update_ns := 0 }

/-- `timing_engine_advance`. -/
def timing_engine_advance (e : TimingEngine) (delta_ns : Nat) : TimingEngine :=
  { e with last_update_ns := e.current_time_ns,
           current_time_ns := add64 e.current_time_ns delta_ns }

/-! ### Simulator (tcan1463q1_simulator.c part)

`TCAN1463Q1Simulator` holds every component by value plus a heap pointer to
the INH controller; the pointed-to `INHController` is modelled here as the
by-value field `inhCtrl` (the pointer itself carries no behaviour), and is
always non-null after a successful create.  The registered-callback lists do
not influence any queryable behaviour of the step (no event is ever fired by
it) and are left out of the model.  The two process-wide `static` variables
of the sources live in `Globals`, OUTSIDE the simulator struct, exactly as
in the C code. -/

/-- `TimingParameters` (six configurable durations, stored as doubles). -/
structure TimingParams where
  tuv_ms : ℚ
  ttxddto_ms : ℚ
  tbusdom_ms : ℚ
  twk_filter_us : ℚ
  twk_timeout_ms : ℚ
  tsilence_s : ℚ
  deriving DecidableEq

/-- The process-wide static state of the sources: the file-scope
`last_bus_activity_time` of the transceiver file and the function-local
`static BusState prev_bus_state` of `fault_detector_check_cbf`.  Both are
shared by every simulator instance in the process. -/
structure Globals where
  last_bus_activity_time : Nat
  cbf_prev_bus_state : BusSt
  deriving DecidableEq

/-- Program-start value of the statics: `last_bus_activity_time = 0` and
`prev_bus_state = BUS_STATE_RECESSIVE`. -/
def globalsInit : Globals :=
  { last_bus_activity_time := 0, cbf_prev_bus_state := .recessive }

/-- `TCAN1463Q1Simulator` struct (tcan1463q1_simulator.h). -/
structure Sim where
  pins : Pins
  mode_state : ModeState
  can_transceiver : CANTransceiver
  power_state : PowerState
  fault_state : FaultState
  wake_state : WakeState
  bus_bias : BusBias
  timing : TimingEngine
  inhCtrl : INHController
  tj_temperature : ℚ
  rl_resistance : ℚ
  cl_capacitance : ℚ
  timing_params : TimingParams
  deriving DecidableEq

/-- `tcan1463q1_simulator_reset` (also run by create): the resulting
simulator value.  The timing-parameter defaults are the range midpoints
computed by the source. -/
def simReset : Sim :=
  { pins := initPins
    mode_state := modeInit
    can_transceiver := canInit.1
    power_state := powerInit
    fault_state := faultInit
    wake_state := wakeInit
    bus_bias := biasInit
    timing := timingInit
    inhCtrl := inhInit
    tj_temperature := 25
    rl_resistance := 60
    cl_capacitance := 1/10000000000
    timing_params :=
      { tuv_ms := 225, ttxddto_ms := 5/2, tbusdom_ms := 13/5,
        twk_filter_us := 23/20, twk_timeout_ms := 7/5, tsilence_s := 9/10 } }

/-- Static-state effect of `tcan1463q1_simulator_reset`:
`can_transceiver_init` zeroes the file-scope `last_bus_activity_time`. -/
def resetGlobals (g : Globals) : Globals :=
  { g with last_bus_activity_time := canInit.2 }

/-- `tcan1463q1_simulator_set_pin` (lines 105-114 of the simulator file):
validates the index and calls `pin_set_value` directly, WITHOUT the
input-capability check that `pin_manager_set_pin` performs.  The Bool is
the C return value; on `false` the simulator is unchanged. -/
def tcan1463q1_simulator_set_pin (sim : Sim) (pin : PinId) (st : PinSt)
    (voltage : ℚ) : Sim × Bool :=
  match pin_set_value (sim.pins.get pin) st voltage with
  | some p => ({ sim with pins := sim.pins.set pin p }, true)
  | none => (sim, false)

/-- The flag batch returned by `tcan1463q1_simulator_get_flags`. -/
structure Flags where
  pwron : Bool
  wakerq : Bool
  wakesr : Bool
  uvsup : Bool
  uvcc : Bool
  uvio : Bool
  cbf : Bool
  txdclp : Bool
  txddto : Bool
  txdrxd : Bool
  candom : Bool
  tsd : Bool
  deriving DecidableEq

/-- `tcan1463q1_simulator_get_flags`. -/
def tcan1463q1_simulator_get_flags (sim : Sim) : Flags :=
  { pwron := sim.power_state.pwron_flag
    wakerq := sim.wake_state.wakerq_flag
    wakesr := sim.wake_state.wakesr_flag
    uvsup := sim.power_state.uvsup_flag
    uvcc := sim.power_state.uvcc_flag
    uvio := sim.power_state.uvio_flag
    cbf := sim.fault_state.cbf_flag
    txdclp := sim.fault_state.txdclp_flag
    txddto := sim.fault_state.txddto_flag
    txdrxd := sim.fault_state.txdrxd_flag
    candom := sim.fault_state.candom_flag
    tsd := sim.fault_state.tsd_flag }

/-- `tcan1463q1_simulator_get_mode`. -/
def tcan1463q1_simulator_get_mode (sim : Sim) : OpMode :=
  sim.mode_state.current_mode

/-- The post-advance step time (`current_time` in `tcan1463q1_simulator_step`
after `timing_engine_advance`). -/
def stepNow (sim : Sim) (delta_ns : Nat) : Nat :=
  (timing_engine_advance sim.timing delta_ns).current_time_ns

/-- The pre-drive bus classification used by the step for the wake handler
and the transceiver state machine (computed from the CANH/CANL voltages as
they stand before the step drives the bus). -/
def stepBusStatePrev (sim : Sim) : BusSt :=
  can_transceiver_get_bus_state (sim.pins.canh.voltage - sim.pins.canl.voltage)

/-- The wake state right after the step's `wake_handler_update` call and
before any mode-entry flag clearing. -/
def stepWakeUpdated (sim : Sim) (delta_ns : Nat) : WakeState :=
  wake_handler_update sim.wake_state (stepBusStatePrev sim)
    (sim.pins.wake.state = PinSt.high) sim.mode_state.current_mode
    (stepNow sim delta_ns)

/-- The `wakerq` local of the step: the wake-request flag sampled right
after `wake_handler_update`, before the mode-entry clear; it is the value
OR-ed into the nFAULT output at the end of the step. -/
def stepSampledWakerq (sim : Sim) (delta_ns : Nat) : Bool :=
  (stepWakeUpdated sim delta_ns).wakerq_flag

/-- STEP 1 of the step function (simulator file lines 268-288): drive the
bus pins from the TXD input when the driver is enabled and no
driver-disabling fault is active, otherwise apply the bias voltages (or
high impedance when the bias state is off).  Returns the possibly updated
transceiver together with the updated pin array. -/
def stepDrive (pins : Pins) (tr2 : CANTransceiver) (fault1 : FaultState)
    (bias : BusBias) (txd_low : Bool) (vccV : ℚ) : CANTransceiver × Pins :=
  if tr2.driver_enabled && !(fault_detector_should_disable_driver fault1)
  then
    let d := can_transceiver_drive_bus tr2 txd_low
    (d.1, { pins with canh := pinSetOr pins.canh PinSt.analog d.2.1,
                      canl := pinSetOr pins.canl PinSt.analog d.2.2 })
  else
    let b := bus_bias_controller_get_bias bias vccV
    if bias.state ≠ BiasSt.off then
      (tr2, { pins with canh := pinSetOr pins.canh PinSt.analog b.1,
                        canl := pinSetOr pins.canl PinSt.analog b.2 })
    else
      (tr2, { pins with canh := pinSetOr pins.canh PinSt.highZ 0,
                        canl := pinSetOr pins.canl PinSt.highZ 0 })

/-- `tcan1463q1_simulator_step` (lines 187-328 of the simulator file),
threading the process statics through explicitly.  Every intermediate
follows the source order; output-pin writes use `pinSetOr` because the step
discards the `pin_set_value` results. -/
def tcan1463q1_simulator_step (sim : Sim) (g : Globals) (delta_ns : Nat) :
    Sim × Globals :=
  let time_before_step := sim.timing.current_time_ns
  let timing := timing_engine_advance sim.timing delta_ns
  let current_time := timing.current_time_ns
  -- read input pin states
  let txd_low := sim.pins.txd.state = PinSt.low
  let en_high := sim.pins.en.state = PinSt.high
  let nstb_high := sim.pins.nstb.state = PinSt.high
  let wake_pin_high := sim.pins.wake.state = PinSt.high
  let inh_mask_high := sim.pins.inhMask.state = PinSt.high
  -- read power supply voltages
  let vsupV := sim.pins.vsup.voltage
  let vccV := sim.pins.vcc.voltage
  let vioVolt := sim.pins.vios.voltage
  -- update power monitor
  let power := power_monitor_update sim.power_state vsupV vccV vioVolt
    current_time
  let vsup_valid := power_monitor_is_vsup_valid power
  -- previous bus state for wake-up detection
  let canh_prev := sim.pins.canh.voltage
  let canl_prev := sim.pins.canl.voltage
  let bus_state_prev := can_transceiver_get_bus_state (canh_prev - canl_prev)
  let wake1 := wake_handler_update sim.wake_state bus_state_prev
    wake_pin_high sim.mode_state.current_mode current_time
  let wakerq := wake1.wakerq_flag
  -- update mode controller
  let old_mode := sim.mode_state.current_mode
  let mres := mode_controller_update sim.mode_state en_high nstb_high
    vsup_valid wakerq current_time
  let ms := mres.1
  let new_mode := mres.2
  -- clear flags on mode transition to Normal
  let enteringNormal : Bool := new_mode = OpMode.normal ∧ old_mode ≠ OpMode.normal
  let power2 := if enteringNormal then power_monitor_clear_pwron_flag power
    else power
  let wake2 := if enteringNormal then wake_handler_clear_flags wake1 else wake1
  -- update CAN transceiver state machine (twice, as the source does)
  let c1 := can_transceiver_update sim.can_transceiver new_mode txd_low
    canh_prev canl_prev current_time g.last_bus_activity_time
  let c2 := can_transceiver_update_state_machine c1.1 new_mode bus_state_prev
    vsup_valid current_time c1.2
  let tr2 := c2.1
  -- update bus bias controller
  let bias := bus_bias_controller_update sim.bus_bias tr2.state bus_state_prev
    current_time
  -- check for mode entry faults
  let fault1 := if enteringNormal then
      fault_detector_check_txdclp sim.fault_state txd_low new_mode
    else sim.fault_state
  -- update INH controller
  let inhc := inh_controller_update sim.inhCtrl new_mode inh_mask_high wakerq
    current_time
  -- STEP 1: drive bus
  let drive := stepDrive sim.pins tr2 fault1 bias txd_low vccV
  let tr3 := drive.1
  let pins1 := drive.2
  -- STEP 2: read bus after driving
  let bus_state := can_transceiver_get_bus_state
    (pins1.canh.voltage - pins1.canl.voltage)
  -- STEP 3: update RXD with propagation delay
  let tr4 := can_transceiver_update_rxd tr3 bus_state current_time
    time_before_step
  let rxd_high := tr4.rxd_output
  -- update fault detector with current bus state
  let fres := fault_detector_update fault1 txd_low (!rxd_high) bus_state
    sim.tj_temperature current_time new_mode g.cbf_prev_bus_state
  let fault2 := fres.1
  -- update output pins
  let rxdWr := pinSetOr pins1.rxd (if rxd_high then PinSt.high else PinSt.low)
    (if rxd_high then vioVolt else 0)
  let pins2 := { pins1 with rxd := rxdWr }
  let nfault_low := fault_detector_get_nfault_state fault2 || wakerq
  let nfaultWr := pinSetOr pins2.nfault
    (if nfault_low then PinSt.low else PinSt.high)
    (if nfault_low then 0 else vioVolt)
  let pins3 := { pins2 with nfault := nfaultWr }
  let inhPin := inh_controller_get_pin_state inhc
  let pins4 := { pins3 with inh := pinSetOr pins3.inh inhPin.1 inhPin.2 }
  ({ sim with pins := pins4, mode_state := ms, can_transceiver := tr4,
              power_state := power2, fault_state := fault2,
              wake_state := wake2, bus_bias := bias, timing := timing,
              inhCtrl := inhc },
   { last_bus_activity_time := c2.2, cbf_prev_bus_state := fres.2 })

/-! ### Snapshot and restore (simulator file lines 498-535)

The snapshot is a `malloc`-ed byte image of `sizeof(TCAN1463Q1Simulator)`
bytes; the byte image is modelled by the captured simulator value and the
byte count by the abstract constant `SIZEOF_SIMULATOR` (its numeric value is
platform-defined; only equality with itself matters to the code).  The
heap-allocated INH controller is reachable from the struct only through a
pointer, so its contents are NOT part of the image; `restore` copies the
image over the struct and then puts the saved live pointer back. -/

/-- Abstract stand-in for `sizeof(TCAN1463Q1Simulator)`. -/
def SIZEOF_SIMULATOR : Nat := 512

/-- `SimulatorSnapshot` (tcan1463q1_simulator.h lines 115-118). -/
structure SimulatorSnapshot where
  size : Nat
  data : Sim
  deriving DecidableEq

/-- `tcan1463q1_simulator_snapshot` (non-null path). -/
def tcan1463q1_simulator_snapshot (sim : Sim) : SimulatorSnapshot :=
  { size := SIZEOF_SIMULATOR, data := sim }

/-- `tcan1463q1_simulator_restore`: succeeds only when the captured size
matches `sizeof(TCAN1463Q1Simulator)` exactly; on success the struct is
overwritten by the image except that the live INH-controller pointer (and
hence the live heap contents it designates) is retained; on failure the
simulator is returned unchanged with result `false`. -/
def tcan1463q1_simulator_restore (sim : Sim) (snap : SimulatorSnapshot) :
    Sim × Bool :=
  if snap.size = SIZEOF_SIMULATOR then
    ({ snap.data with inhCtrl := sim.inhCtrl }, true)
  else
    (sim, false)

/-! ### Named views of the step's intermediate values

Each of the following definitions recomputes one intermediate value of
`tcan1463q1_simulator_step` from the pre-step state; every definition is
definitionally equal to the corresponding `let` of the step, which lets
theorems talk about intermediates of the step without restating it. -/

/-- The step's updated power state before any mode-entry clearing. -/
def stepPower (sim : Sim) (delta_ns : Nat) : PowerState :=
  power_monitor_update sim.power_state sim.pins.vsup.voltage
    sim.pins.vcc.voltage sim.pins.vios.voltage (stepNow sim delta_ns)

/-- The step's mode-controller result (updated state and returned mode). -/
def stepModePair (sim : Sim) (delta_ns : Nat) : ModeState × OpMode :=
  mode_controller_update sim.mode_state (sim.pins.en.state = PinSt.high)
    (sim.pins.nstb.state = PinSt.high)
    (power_monitor_is_vsup_valid (stepPower sim delta_ns))
    (stepSampledWakerq sim delta_ns) (stepNow sim delta_ns)

/-- The step's `new_mode` local. -/
def stepNewMode (sim : Sim) (delta_ns : Nat) : OpMode :=
  (stepModePair sim delta_ns).2

/-- The step's mode-entered-Normal condition: the mode newly became Normal
in this step. -/
def stepEnteringNormal (sim : Sim) (delta_ns : Nat) : Bool :=
  stepNewMode sim delta_ns = OpMode.normal ∧
    sim.mode_state.current_mode ≠ OpMode.normal

/-- The `nfault_low` local of the step: the aggregated fault indication
OR-ed with the step-sampled wake-request flag. -/
def stepNfaultLow (sim : Sim) (g : Globals) (delta_ns : Nat) : Bool :=
  fault_detector_get_nfault_state
      (tcan1463q1_simulator_step sim g delta_ns).1.fault_state
    || stepSampledWakerq sim delta_ns

/-- Intermediate value of the C4 failing run: one `fault_detector_update`
with TXD and RXD both recessive (matched) at time 0. -/
def c4_run1 : FaultState × BusSt :=
  fault_detector_update faultInit false false BusSt.recessive 25 0
    OpMode.normal BusSt.recessive

/-- Second `fault_detector_update` of the C4 failing run, 1.3 ms later with
TXD and RXD still both recessive. -/
def c4_run2 : FaultState × BusSt :=
  fault_detector_update c4_run1.1 false false BusSt.recessive 25 1300000
    OpMode.normal c4_run1.2

/-- Setup state for the C8 witness: a reset simulator with nSTB and EN
driven high, so the next step enters Normal from Off. -/
def c8Sim : Sim :=
  (tcan1463q1_simulator_set_pin
    (tcan1463q1_simulator_set_pin simReset PinId.nstb PinSt.high 0).1
    PinId.en PinSt.high 0).1

/-! ### C1 counterexample run

A single simulator instance is driven from reset into Normal (nSTB and EN
high), then to Go-to-Sleep (nSTB low), then Sleep (0.6 s of silence), and
finally the dedicated WAKE input is toggled: the wake handler sets the
wake-request flag, the mode becomes Standby, and the step drives nFAULT low
even though all six fault flags are clear. -/

/-- Reset simulator with nSTB driven high. -/
def c1a1 : Sim :=
  (tcan1463q1_simulator_set_pin simReset PinId.nstb PinSt.high 0).1

/-- ... and EN driven high. -/
def c1a2 : Sim :=
  (tcan1463q1_simulator_set_pin c1a1 PinId.en PinSt.high 0).1

/-- First step: the mode enters Normal. -/
def c1b1 : Sim × Globals :=
  tcan1463q1_simulator_step c1a2 (resetGlobals globalsInit) 1000

/-- nSTB driven low again. -/
def c1a3 : Sim :=
  (tcan1463q1_simulator_set_pin c1b1.1 PinId.nstb PinSt.low 0).1

/-- Second step: the mode enters Go-to-Sleep. -/
def c1b2 : Sim × Globals := tcan1463q1_simulator_step c1a3 c1b1.2 1000

/-- Third step, 0.6 s later: the mode enters Sleep. -/
def c1b3 : Sim × Globals := tcan1463q1_simulator_step c1b2.1 c1b2.2 600000000

/-- The dedicated WAKE input is toggled high. -/
def c1a4 : Sim :=
  (tcan1463q1_simulator_set_pin c1b3.1 PinId.wake PinSt.high 0).1

/-- Fourth step: the wake edge sets the wake-request flag. -/
def c1b4 : Sim × Globals := tcan1463q1_simulator_step c1a4 c1b3.2 1000

/-! ### C5: receive-output propagation delay

`rxdRun` iterates `can_transceiver_update_rxd` the way successive steps do
after a transmit-level change has flipped the bus classification: every call
sees the new (constant) bus classification, the call's own post-advance
boundary time, and schedules from the previous boundary (the step passes
its `time_before_step`, which is the preceding call's post-advance time;
the first call schedules from the boundary `sch` at which the flip became
visible). -/

/-- Iterated `can_transceiver_update_rxd` over a list of boundary times. -/
def rxdRun (tr : CANTransceiver) (B : BusSt) (sch : Nat) :
    List Nat → CANTransceiver
  | [] => tr
  | t :: ts => rxdRun (can_transceiver_update_rxd tr B t sch) B t ts

/-- The two claim-relevant instantiations: bus dominant with target output
low, or bus recessive with target output high. -/
def rxdCase (B : BusSt) (τ : Bool) : Prop :=
  B = BusSt.dominant ∧ τ = false ∨ B = BusSt.recessive ∧ τ = true

/-- Transceiver state for the C5 witness: initialized transceiver with the
receiver enabled (output high/recessive, nothing pending). -/
def c5Tr : CANTransceiver := { canInit.1 with receiver_enabled := true }

/-! ### C7 runs: shared static state across instances

Instance B receives the identical operation sequence in both runs below:
drive nSTB and EN high, step 1 µs, then step 100 ns four times.  In the
first run the steps of a second instance A (holding TXD dominant in Normal
mode) are interleaved between B's steps; the two instances communicate
through the process-wide statics (`last_bus_activity_time` and the
bus-fault-streak `prev_bus_state`), so each of B's steps observes a
dominant-to-recessive transition that B's own bus never made and B's
bus-fault-streak counter reaches four.  In the second run B executes the
same calls alone and the flag stays clear. -/

/-- Statics after both instances were created (each create resets the
file-scope last-bus-activity time). -/
def c7g0 : Globals := resetGlobals (resetGlobals globalsInit)

/-- Instance B after its two pin writes (nSTB, EN high). -/
def c7bSetup : Sim :=
  (tcan1463q1_simulator_set_pin
    (tcan1463q1_simulator_set_pin simReset PinId.nstb PinSt.high 0).1
    PinId.en PinSt.high 0).1

/-- Instance A after its two pin writes (nSTB, EN high). -/
def c7aSetup : Sim :=
  (tcan1463q1_simulator_set_pin
    (tcan1463q1_simulator_set_pin simReset PinId.nstb PinSt.high 0).1
    PinId.en PinSt.high 0).1

/-- Interleaved run, B's first step (enters Normal). -/
def c7iB1 : Sim × Globals := tcan1463q1_simulator_step c7bSetup c7g0 1000

/-- Interleaved run, A's first step (enters Normal), then TXD driven low. -/
def c7iA1 : Sim :=
  (tcan1463q1_simulator_set_pin
    (tcan1463q1_simulator_step c7aSetup c7iB1.2 1000).1
    PinId.txd PinSt.low 0).1

/-- Statics after A's first step. -/
def c7iG1 : Globals := (tcan1463q1_simulator_step c7aSetup c7iB1.2 1000).2

/-- One interleaving round: A steps 100 ns (its bus reads dominant), then B
steps 100 ns (its bus reads recessive). -/
def c7round (p : Sim × Sim × Globals) : Sim × Sim × Globals :=
  let a := tcan1463q1_simulator_step p.1 p.2.2 100
  let b := tcan1463q1_simulator_step p.2.1 a.2 100
  (a.1, b.1, b.2)

/-- Interleaved run after four rounds. -/
def c7iFinal : Sim × Sim × Globals :=
  c7round (c7round (c7round (c7round (c7iA1, c7iB1.1, c7iG1))))

/-- Solo run, B's first step. -/
def c7sB1 : Sim × Globals := tcan1463q1_simulator_step c7bSetup c7g0 1000

/-- One solo round: only B steps 100 ns. -/
def c7soloStep (p : Sim × Globals) : Sim × Globals :=
  tcan1463q1_simulator_step p.1 p.2 100

/-- Solo run after the same four 100 ns steps of B. -/
def c7sFinal : Sim × Globals :=
  c7soloStep (c7soloStep (c7soloStep (c7soloStep c7sB1)))

/-- A call whose output already matches the bus classification (and with
nothing pending) is a no-op. -/
theorem update_rxd_stable (B : BusSt) (τ : Bool) (hc : rxdCase B τ)
    (tr : CANTransceiver) (t sch : Nat)
    (hrecv : tr.receiver_enabled = true) (hpend : tr.rxd_pending = false)
    (hout : tr.rxd_output = τ) :
    can_transceiver_update_rxd tr B t sch = tr := by
  rcases hc with ⟨hB, hτ⟩ | ⟨hB, hτ⟩ <;> subst hB <;> subst hτ <;>
    simp [can_transceiver_update_rxd, hrecv, hpend, hout]

/-- A call before the scheduled apply time leaves an in-flight matching
pending update (and everything else) untouched. -/
theorem update_rxd_pending_keep (B : BusSt) (τ : Bool) (hc : rxdCase B τ)
    (tr : CANTransceiver) (t sch U : Nat)
    (hrecv : tr.receiver_enabled = true) (hpend : tr.rxd_pending = true)
    (hout : tr.rxd_output = (!τ)) (hval : tr.rxd_pending_value = τ)
    (hU : tr.rxd_update_time = U) (hlt : t < U) :
    can_transceiver_update_rxd tr B t sch = tr := by
  have hnle : ¬ U ≤ t := Nat.not_le.mpr hlt
  rcases hc with ⟨hB, hτ⟩ | ⟨hB, hτ⟩ <;> subst hB <;> subst hτ <;>
    simp [can_transceiver_update_rxd, hrecv, hpend, hout, hval, hU, hnle]

/-- A call at or past the scheduled apply time applies the pending value. -/
theorem update_rxd_apply (B : BusSt) (τ : Bool) (hc : rxdCase B τ)
    (tr : CANTransceiver) (t sch : Nat)
    (hrecv : tr.receiver_enabled = true) (hpend : tr.rxd_pending = true)
    (hval : tr.rxd_pending_value = τ) (hge : tr.rxd_update_time ≤ t) :
    can_transceiver_update_rxd tr B t sch
      = { tr with rxd_output := τ, rxd_pending := false } := by
  rcases hc with ⟨hB, hτ⟩ | ⟨hB, hτ⟩ <;> subst hB <;> subst hτ <;>
    simp [can_transceiver_update_rxd, hrecv, hpend, hval, hge]

/-- The first call after the flip either applies immediately (when the
boundary already lies past schedule + delay) or schedules the flip at
schedule + delay; the delay is 145 ns toward dominant and 150 ns toward
recessive, the midpoints the source computes from the TPROP tables. -/
theorem update_rxd_start (B : BusSt) (τ : Bool) (dl : Nat)
    (hc : B = BusSt.dominant ∧ τ = false ∧ dl = 145
        ∨ B = BusSt.recessive ∧ τ = true ∧ dl = 150)
    (tr : CANTransceiver) (t sch : Nat)
    (hrecv : tr.receiver_enabled = true) (hpend : tr.rxd_pending = false)
    (hout : tr.rxd_output = (!τ)) :
    can_transceiver_update_rxd tr B t sch
      = (if add64 sch dl ≤ t then
          { tr with rxd_output := τ, rxd_pending := false }
        else
          { tr with rxd_pending := true, rxd_pending_value := τ,
                    rxd_update_time := add64 sch dl }) := by
  rcases hc with ⟨hB, hτ, hdl⟩ | ⟨hB, hτ, hdl⟩ <;> subst hB <;> subst hτ <;>
    subst hdl <;>
    simp [can_transceiver_update_rxd, hrecv, hpend, hout,
      TPROP_LOOP1_MIN_NS, TPROP_LOOP1_MAX_NS, TPROP_LOOP2_MIN_NS,
      TPROP_LOOP2_MAX_NS]

/-- Once the output matches the bus classification, the whole remaining run
is a no-op. -/
theorem rxdRun_stable (B : BusSt) (τ : Bool) (hc : rxdCase B τ) :
    ∀ (ts : List Nat) (tr : CANTransceiver) (sch : Nat),
      tr.receiver_enabled = true → tr.rxd_pending = false →
      tr.rxd_output = τ → rxdRun tr B sch ts = tr
  | [], _, _, _, _, _ => rfl
  | t :: ts, tr, sch, h1, h2, h3 => by
      rw [rxdRun, update_rxd_stable B τ hc tr t sch h1 h2 h3]
      exact rxdRun_stable B τ hc ts tr t h1 h2 h3

/-- With a matching update pending at absolute time `U`, the output has
flipped after the run exactly when some boundary reached `U`. -/
theorem rxdRun_pending (B : BusSt) (τ : Bool) (hc : rxdCase B τ) (U : Nat) :
    ∀ (ts : List Nat) (tr : CANTransceiver) (sch : Nat),
      tr.receiver_enabled = true → tr.rxd_pending = true →
      tr.rxd_output = (!τ) → tr.rxd_pending_value = τ →
      tr.rxd_update_time = U →
      ((rxdRun tr B sch ts).rxd_output = τ ↔ ∃ t ∈ ts, U ≤ t) := by
  intro ts
  induction ts with
  | nil =>
      intro tr sch _ _ h3 _ _
      simp [rxdRun, h3]
  | cons t ts ih =>
      intro tr sch h1 h2 h3 h4 h5
      by_cases hge : U ≤ t
      · rw [rxdRun, update_rxd_apply B τ hc tr t sch h1 h2 h4 (h5 ▸ hge),
          rxdRun_stable B τ hc ts
            { tr with rxd_output := τ, rxd_pending := false } t h1 rfl rfl]
        exact ⟨fun _ => ⟨t, List.mem_cons_self t ts, hge⟩, fun _ => rfl⟩
      · rw [rxdRun, update_rxd_pending_keep B τ hc tr t sch U h1 h2 h3 h4 h5
          (Nat.lt_of_not_le hge), ih tr t h1 h2 h3 h4 h5]
        simp [hge]

/-- From a clean pre-flip state, the output has flipped after the run
exactly when some boundary reached schedule + delay. -/
theorem rxdRun_clean (B : BusSt) (τ : Bool) (dl : Nat)
    (hc : B = BusSt.dominant ∧ τ = false ∧ dl = 145
        ∨ B = BusSt.recessive ∧ τ = true ∧ dl = 150)
    (ts : List Nat) (tr : CANTransceiver) (sch : Nat)
    (hrecv : tr.receiver_enabled = true) (hpend : tr.rxd_pending = false)
    (hout : tr.rxd_output = (!τ)) (hb : sch + 200 < U64MOD) :
    ((rxdRun tr B sch ts).rxd_output = τ ↔ ∃ t ∈ ts, sch + dl ≤ t) := by
  have hc' : rxdCase B τ := by
    rcases hc with ⟨hB, hτ, _⟩ | ⟨hB, hτ, _⟩
    · exact Or.inl ⟨hB, hτ⟩
    · exact Or.inr ⟨hB, hτ⟩
  have hdl : dl ≤ 200 := by
    rcases hc with ⟨_, _, hdl⟩ | ⟨_, _, hdl⟩ <;> omega
  have hadd : add64 sch dl = sch + dl := by
    unfold add64
    exact Nat.mod_eq_of_lt
      (lt_of_le_of_lt (Nat.add_le_add_left hdl sch) hb)
  cases ts with
  | nil => simp [rxdRun, hout]
  | cons t ts =>
      rw [rxdRun, update_rxd_start B τ dl hc tr t sch hrecv hpend hout, hadd]
      by_cases hle : sch + dl ≤ t
      · rw [if_pos hle, rxdRun_stable B τ hc' ts
          { tr with rxd_output := τ, rxd_pending := false } t hrecv rfl rfl]
        exact ⟨fun _ => ⟨t, List.mem_cons_self t ts, hle⟩, fun _ => rfl⟩
      · rw [if_neg hle,
          rxdRun_pending B τ hc' (sch + dl) ts
            { tr with rxd_pending := true, rxd_pending_value := τ,
                      rxd_update_time := sch + dl } t hrecv rfl hout rfl rfl]
        simp [hle]

/-- C5: after a transmit-level change flips the bus classification (made
visible at boundary `T0`), the receive output reaches the new level at a
step boundary `t` exactly when `t ≥ T0 + delay`, where the delay is 145 ns
toward dominant and 150 ns toward recessive; both delays lie within the
documented windows (at least 100 ns toward dominant and 110 ns toward
recessive, at most 190 ns), so the output never flips before the minimum
documented delay and has always flipped at every boundary at or past the
maximum documented delay.  `o` is the pre-flip output level (`true` means
the output was recessive and the bus flipped toward dominant). -/
theorem C5_propagation_delay_bounds (o : Bool) (T0 : Nat) (ts : List Nat)
    (tr : CANTransceiver) (hrecv : tr.receiver_enabled = true)
    (hpend : tr.rxd_pending = false) (hout : tr.rxd_output = o)
    (hT0 : T0 + 200 < U64MOD) :
    ((rxdRun tr (if o then BusSt.dominant else BusSt.recessive) T0 ts).rxd_output
        = (!o)
      ↔ ∃ t ∈ ts, T0 + (if o then 145 else 150) ≤ t)
    ∧ TPROP_LOOP1_MIN_NS ≤ 145 ∧ TPROP_LOOP2_MIN_NS ≤ 150
    ∧ (145 : Nat) ≤ TPROP_LOOP1_MAX_NS ∧ (150 : Nat) ≤ TPROP_LOOP2_MAX_NS := by
  refine ⟨?_, by decide, by decide, by decide, by decide⟩
  cases o
  · exact rxdRun_clean BusSt.recessive true 150 (Or.inr ⟨rfl, rfl, rfl⟩)
      ts tr T0 hrecv hpend hout hT0
  · exact rxdRun_clean BusSt.dominant false 145 (Or.inl ⟨rfl, rfl, rfl⟩)
      ts tr T0 hrecv hpend hout hT0

/-- C5 witness: with boundaries 100 ns and 145 ns after the flip, the
theorem applies and the output is low after the run (the 145 ns boundary
satisfies the delay) — the hypotheses are discharged at this concrete
transceiver. -/
theorem C5_witness :
    c5Tr.receiver_enabled = true ∧ c5Tr.rxd_pending = false
    ∧ c5Tr.rxd_output = true ∧ 0 + 200 < U64MOD
    ∧ (((rxdRun c5Tr BusSt.dominant 0 [100, 145]).rxd_output = false
        ↔ ∃ t ∈ [100, 145], 0 + 145 ≤ t)
       ∧ TPROP_LOOP1_MIN_NS ≤ 145 ∧ TPROP_LOOP2_MIN_NS ≤ 150
       ∧ (145 : Nat) ≤ TPROP_LOOP1_MAX_NS
       ∧ (150 : Nat) ≤ TPROP_LOOP2_MAX_NS) :=
  ⟨rfl, rfl, rfl, by decide,
   C5_propagation_delay_bounds true 0 [100, 145] c5Tr rfl rfl rfl (by decide)⟩

/-! ## Helper lemmas -/

/-- The bus-drive phase of the step writes only the CANH and CANL entries of
the pin array; every other pin is returned unchanged. -/
theorem stepDrive_keeps (p : Pins) (tr : CANTransceiver) (f : FaultState)
    (b : BusBias) (l : Bool) (v : ℚ) :
    (stepDrive p tr f b l v).2.txd = p.txd ∧
    (stepDrive p tr f b l v).2.rxd = p.rxd ∧
    (stepDrive p tr f b l v).2.en = p.en ∧
    (stepDrive p tr f b l v).2.nstb = p.nstb ∧
    (stepDrive p tr f b l v).2.nfault = p.nfault ∧
    (stepDrive p tr f b l v).2.wake = p.wake ∧
    (stepDrive p tr f b l v).2.inh = p.inh ∧
    (stepDrive p tr f b l v).2.inhMask = p.inhMask ∧
    (stepDrive p tr f b l v).2.vsup = p.vsup ∧
    (stepDrive p tr f b l v).2.vcc = p.vcc ∧
    (stepDrive p tr f b l v).2.vios = p.vios ∧
    (stepDrive p tr f b l v).2.gnd = p.gnd := by
  unfold stepDrive
  split
  · exact ⟨rfl, rfl, rfl, rfl, rfl, rfl, rfl, rfl, rfl, rfl, rfl, rfl⟩
  · split
    · exact ⟨rfl, rfl, rfl, rfl, rfl, rfl, rfl, rfl, rfl, rfl, rfl, rfl⟩
    · exact ⟨rfl, rfl, rfl, rfl, rfl, rfl, rfl, rfl, rfl, rfl, rfl, rfl⟩

/-- `mode_controller_can_transition` holds exactly for self-transitions and
pairs of the static table (finite check over the 36 mode pairs). -/
theorem can_transition_iff :
    ∀ f t : OpMode, mode_controller_can_transition f t = true ↔
      (f = t ∨ (f, t) ∈ valid_transitions) := by decide

/-! ## Claim theorems -/

/-- C2: the claim says the external pin-set succeeds iff the pin has input
capability and the voltage validates; `pin_manager_set_pin` implements
exactly that, but the simulator-level entry `tcan1463q1_simulator_set_pin`
(reached from the public C API `tcan_simulator_set_pin`) skips the
input-capability check: setting the output-only RXD pin succeeds and
overwrites its state, while the pin-manager operation on the identical
initial pin array rejects it.  This evaluates the code at the failing
input. -/
theorem C2_simulator_set_pin_direction_bug :
    initPins.rxd.is_input = false
    ∧ (tcan1463q1_simulator_set_pin simReset PinId.rxd PinSt.low 0).2 = true
    ∧ (tcan1463q1_simulator_set_pin simReset PinId.rxd
        PinSt.low 0).1.pins.rxd.state = PinSt.low
    ∧ pin_manager_set_pin initPins PinId.rxd PinSt.low 0 = none := by
  with_unfolding_all decide

/-- C4: TXD and RXD matched (both recessive) continuously for 1.3 ms, which
is at least the minimum timeout bound of 1.2 ms, yet after the two
`fault_detector_update` calls the short flag is still clear — because
`fault_detector_check_txddto` runs first and resets the shared
`txd_dominant_start` timer whenever TXD is recessive.  The same two inputs
fed to `fault_detector_check_txdrxd` in isolation do set the flag, matching
the claim and the check's own documentation. -/
theorem C4_txdrxd_short_bug :
    c4_run2.1.txdrxd_flag = false
    ∧ TTXDDTO_MIN_NS ≤ 1300000
    ∧ (fault_detector_check_txdrxd
        (fault_detector_check_txdrxd faultInit false false 0) false false
        1300000).txdrxd_flag = true := by
  decide

/-- C9: a simulation step mutates only the output pins CANH, CANL, RXD,
NFAULT and INH; the input pins TXD, EN, nSTB, WAKE, INH_MASK and the supply
pins VSUP, VCC, VIO, GND keep their externally set state and voltage
(each conjunct asserts full `Pin` equality, covering state and voltage). -/
theorem C9_step_frame_effect (s : Sim) (g : Globals) (d : Nat) :
    (tcan1463q1_simulator_step s g d).1.pins.txd = s.pins.txd
    ∧ (tcan1463q1_simulator_step s g d).1.pins.en = s.pins.en
    ∧ (tcan1463q1_simulator_step s g d).1.pins.nstb = s.pins.nstb
    ∧ (tcan1463q1_simulator_step s g d).1.pins.wake = s.pins.wake
    ∧ (tcan1463q1_simulator_step s g d).1.pins.inhMask = s.pins.inhMask
    ∧ (tcan1463q1_simulator_step s g d).1.pins.vsup = s.pins.vsup
    ∧ (tcan1463q1_simulator_step s g d).1.pins.vcc = s.pins.vcc
    ∧ (tcan1463q1_simulator_step s g d).1.pins.vios = s.pins.vios
    ∧ (tcan1463q1_simulator_step s g d).1.pins.gnd = s.pins.gnd :=
  ⟨(stepDrive_keeps _ _ _ _ _ _).1,
   (stepDrive_keeps _ _ _ _ _ _).2.2.1,
   (stepDrive_keeps _ _ _ _ _ _).2.2.2.1,
   (stepDrive_keeps _ _ _ _ _ _).2.2.2.2.2.1,
   (stepDrive_keeps _ _ _ _ _ _).2.2.2.2.2.2.2.1,
   (stepDrive_keeps _ _ _ _ _ _).2.2.2.2.2.2.2.2.1,
   (stepDrive_keeps _ _ _ _ _ _).2.2.2.2.2.2.2.2.2.1,
   (stepDrive_keeps _ _ _ _ _ _).2.2.2.2.2.2.2.2.2.2.1,
   (stepDrive_keeps _ _ _ _ _ _).2.2.2.2.2.2.2.2.2.2.2⟩

/-- C10: voltage validation evaluates the digital-zero exemption against the
pin's currently stored state, not the state being assigned: (1) acceptance
of `pin_set_value` is independent of the assigned state, (2) voltage 0 is
accepted whenever the stored state is not ANALOG, (3) for a stored ANALOG
state the range check decides, and (4) setting the initialized VSUP pin
(stored ANALOG, range 4.5-42 V) to a digital state with voltage 0 is
rejected. -/
theorem C10_validate_uses_stored_state :
    (∀ (pin : Pin) (s1 s2 : PinSt) (v : ℚ),
        (pin_set_value pin s1 v).isSome = (pin_set_value pin s2 v).isSome)
    ∧ (∀ pin : Pin, pin.state ≠ PinSt.analog →
        pin_validate_voltage pin 0 = true)
    ∧ (∀ (pin : Pin) (v : ℚ), pin.state = PinSt.analog →
        (pin_validate_voltage pin v = true ↔
          pin.min_voltage ≤ v ∧ v ≤ pin.max_voltage))
    ∧ pin_validate_voltage initPins.vsup 0 = false
    ∧ pin_manager_set_pin initPins PinId.vsup PinSt.low 0 = none := by
  refine ⟨?_, ?_, ?_, ?_, ?_⟩
  · intro pin s1 s2 v
    unfold pin_set_value
    split <;> rfl
  · intro pin h
    unfold pin_validate_voltage
    rw [if_pos ⟨h, rfl⟩]
  · intro pin v h
    unfold pin_validate_voltage
    rw [if_neg (by simp [h])]
    split
    · next hcond =>
        constructor
        · intro hft
          exact absurd hft (by simp)
        · rintro ⟨hl, hr⟩
          rcases hcond with h' | h' <;> linarith
    · next hcond =>
        push_neg at hcond
        exact ⟨fun _ => hcond, fun _ => rfl⟩
  · with_unfolding_all decide
  · with_unfolding_all decide

/-- C10 witness: the second conjunct applied to the initialized TXD pin
(stored state HIGH) and the third applied to the initialized VSUP pin
(stored state ANALOG) at voltage 5, discharging the hypotheses at those
concrete pins. -/
theorem C10_witness :
    (initPins.txd.state ≠ PinSt.analog
      ∧ pin_validate_voltage initPins.txd 0 = true)
    ∧ (initPins.vsup.state = PinSt.analog
      ∧ (pin_validate_voltage initPins.vsup 5 = true ↔
          initPins.vsup.min_voltage ≤ 5 ∧ (5:ℚ) ≤ initPins.vsup.max_voltage)) :=
  ⟨⟨by decide, C10_validate_uses_stored_state.2.1 initPins.txd (by decide)⟩,
   ⟨by decide, C10_validate_uses_stored_state.2.2.1 initPins.vsup 5 (by decide)⟩⟩

/-- C6: `restore (snapshot x)` succeeds and returns exactly `x` (hence every
queryable field — mode, status and fault flags, pin states and voltages,
simulated time — reads back identically); `restore` succeeds exactly when
the snapshot's captured size equals the live structure's size; and a failed
restore leaves the simulator unchanged. -/
theorem C6_snapshot_restore (x : Sim) (snap : SimulatorSnapshot) :
    tcan1463q1_simulator_restore x (tcan1463q1_simulator_snapshot x)
      = (x, true)
    ∧ ((tcan1463q1_simulator_restore x snap).2 = true ↔
        snap.size = SIZEOF_SIMULATOR)
    ∧ ((tcan1463q1_simulator_restore x snap).2 = false →
        (tcan1463q1_simulator_restore x snap).1 = x) := by
  refine ⟨rfl, ?_, ?_⟩
  · unfold tcan1463q1_simulator_restore
    split
    · next h => simpa using h
    · next h => simpa using h
  · intro h
    unfold tcan1463q1_simulator_restore at h ⊢
    by_cases hc : snap.size = SIZEOF_SIMULATOR
    · rw [if_pos hc] at h
      exact absurd h (by simp)
    · rw [if_neg hc]

/-- C6 witness: restoring a reset simulator from its own snapshot returns it
unchanged with success, and a size-0 snapshot is rejected leaving the
simulator unchanged (discharging the failed-restore hypothesis at the
concrete size-0 snapshot). -/
theorem C6_witness :
    tcan1463q1_simulator_restore simReset
        (tcan1463q1_simulator_snapshot simReset) = (simReset, true)
    ∧ (tcan1463q1_simulator_restore simReset
        { size := 0, data := simReset }).1 = simReset :=
  ⟨(C6_snapshot_restore simReset { size := 0, data := simReset }).1,
   (C6_snapshot_restore simReset { size := 0, data := simReset }).2.2
     (by with_unfolding_all decide)⟩

/-- C3: a committed mode change implies the (from, to) pair is in the static
transition table; a pair absent from the table (and not a self-transition)
is never reached in one update; and when the computed target is not
reachable per the table the current mode remains unchanged. -/
theorem C3_mode_transition_validity (st : ModeState) (en nstb vs wk : Bool)
    (t : Nat) :
    ((mode_controller_update st en nstb vs wk t).1.current_mode
        ≠ st.current_mode →
      (st.current_mode,
        (mode_controller_update st en nstb vs wk t).1.current_mode)
        ∈ valid_transitions)
    ∧ (∀ m : OpMode, m ≠ st.current_mode →
        (st.current_mode, m) ∉ valid_transitions →
        (mode_controller_update st en nstb vs wk t).1.current_mode ≠ m)
    ∧ (mode_controller_can_transition st.current_mode
        (determine_target_mode st.current_mode en nstb vs wk
          (if t ≥ st.mode_entry_time then t - st.mode_entry_time else 0))
        = false →
      (mode_controller_update st en nstb vs wk t).1.current_mode
        = st.current_mode) := by
  simp only [mode_controller_update]
  generalize (if t ≥ st.mode_entry_time then t - st.mode_entry_time else 0)
    = tim
  split_ifs with h1 h2
  · refine ⟨fun _ => ?_, fun m hm hmem heq => ?_, fun hcf => ?_⟩
    · exact ((can_transition_iff _ _).mp h2).resolve_left
        (fun he => h1 he.symm)
    · exact hmem (heq ▸ ((can_transition_iff _ _).mp h2).resolve_left
        (fun he => h1 he.symm))
    · exact absurd (h2.symm.trans hcf) (by decide)
  · exact ⟨fun h => absurd rfl h, fun m hm _ => Ne.symm hm, fun _ => rfl⟩
  · exact ⟨fun h => absurd rfl h, fun m hm _ => Ne.symm hm, fun _ => rfl⟩

/-- C3 witness: from Off with nSTB low the computed target Go-to-Sleep is
not reachable per the table, so the mode remains Off. -/
theorem C3_witness :
    mode_controller_can_transition modeInit.current_mode
      (determine_target_mode modeInit.current_mode false false true false
        (if 5 ≥ modeInit.mode_entry_time then 5 - modeInit.mode_entry_time
         else 0)) = false
    ∧ (mode_controller_update modeInit false false true false 5).1.current_mode
        = modeInit.current_mode :=
  ⟨by decide,
   (C3_mode_transition_validity modeInit false false true false 5).2.2
     (by decide)⟩

/-- The wake handler's pattern machine never clears the wake-source flag:
`wake_handler_process_wup` preserves a set WAKESR. -/
theorem process_wup_wakesr_mono (st : WakeState) (b : BusSt) (t : Nat)
    (h : st.wakesr_flag = true) :
    (wake_handler_process_wup st b t).wakesr_flag = true := by
  unfold wake_handler_process_wup wupReset
  repeat' split
  all_goals first | exact h | rfl

/-- The local-edge path also never clears the wake-source flag. -/
theorem process_lwu_wakesr_mono (st : WakeState) (wk : Bool) (t : Nat)
    (h : st.wakesr_flag = true) :
    (wake_handler_process_lwu st wk t).wakesr_flag = true := by
  simp only [wake_handler_process_lwu]
  split
  · rfl
  · exact h

/-- `wake_handler_update` never clears the wake-source flag either (it is
set by completed wake patterns and local edges and otherwise untouched). -/
theorem wake_update_wakesr_mono (st : WakeState) (b : BusSt) (wk : Bool)
    (m : OpMode) (t : Nat) (h : st.wakesr_flag = true) :
    (wake_handler_update st b wk m t).wakesr_flag = true := by
  unfold wake_handler_update
  split
  · split
    · exact process_lwu_wakesr_mono _ _ _ (process_wup_wakesr_mono _ _ _ h)
    · exact process_wup_wakesr_mono _ _ _ h
  · split
    · exact h
    · exact h

/-- C8: whenever a step makes the operating mode enter Normal from any other
mode, that step clears the power-on flag and the wake-request flag; the
wake-source-recognized flag is not touched by the clear (the post-step
value equals the value right after the wake-handler update) and a set
wake-source flag persists across the step. -/
theorem C8_mode_entry_flag_clearing (s : Sim) (g : Globals) (d : Nat)
    (h1 : (tcan1463q1_simulator_step s g d).1.mode_state.current_mode
        = OpMode.normal)
    (h2 : s.mode_state.current_mode ≠ OpMode.normal) :
    (tcan1463q1_simulator_step s g d).1.power_state.pwron_flag = false
    ∧ (tcan1463q1_simulator_step s g d).1.wake_state.wakerq_flag = false
    ∧ (tcan1463q1_simulator_step s g d).1.wake_state.wakesr_flag
        = (stepWakeUpdated s d).wakesr_flag
    ∧ (s.wake_state.wakesr_flag = true →
        (tcan1463q1_simulator_step s g d).1.wake_state.wakesr_flag = true) := by
  have hpv : (tcan1463q1_simulator_step s g d).1.power_state
      = (if stepEnteringNormal s d then
          power_monitor_clear_pwron_flag (stepPower s d)
        else stepPower s d) := rfl
  have hwv : (tcan1463q1_simulator_step s g d).1.wake_state
      = (if stepEnteringNormal s d then
          wake_handler_clear_flags (stepWakeUpdated s d)
        else stepWakeUpdated s d) := rfl
  have hnew : stepNewMode s d = OpMode.normal := h1
  have hent : stepEnteringNormal s d = true := by
    unfold stepEnteringNormal
    exact decide_eq_true ⟨hnew, h2⟩
  have hp : (tcan1463q1_simulator_step s g d).1.power_state
      = power_monitor_clear_pwron_flag (stepPower s d) := by
    rw [hpv, hent]
    exact if_pos rfl
  have hw : (tcan1463q1_simulator_step s g d).1.wake_state
      = wake_handler_clear_flags (stepWakeUpdated s d) := by
    rw [hwv, hent]
    exact if_pos rfl
  refine ⟨by rw [hp]; rfl, by rw [hw]; rfl, by rw [hw]; rfl, fun hsr => ?_⟩
  rw [hw]
  exact wake_update_wakesr_mono _ _ _ _ _ hsr

/-- C8 witness: the first step of `c8Sim` enters Normal from Off; applying
the theorem there shows the power-on and wake-request flags cleared. -/
theorem C8_witness :
    (tcan1463q1_simulator_step c8Sim globalsInit 1000).1.mode_state.current_mode
        = OpMode.normal
    ∧ c8Sim.mode_state.current_mode ≠ OpMode.normal
    ∧ (tcan1463q1_simulator_step c8Sim globalsInit 1000).1.power_state.pwron_flag
        = false
    ∧ (tcan1463q1_simulator_step c8Sim globalsInit 1000).1.wake_state.wakerq_flag
        = false :=
  ⟨by with_unfolding_all decide, by decide,
   (C8_mode_entry_flag_clearing c8Sim globalsInit 1000
     (by with_unfolding_all decide) (by decide)).1,
   (C8_mode_entry_flag_clearing c8Sim globalsInit 1000
     (by with_unfolding_all decide) (by decide)).2.1⟩

/-- The nFAULT pin after a step is the pre-step nFAULT pin written through
`pin_set_value` with level and voltage chosen by the step's `nfault_low`
local. -/
theorem step_nfault_pin (s : Sim) (g : Globals) (d : Nat) :
    (tcan1463q1_simulator_step s g d).1.pins.nfault
      = pinSetOr s.pins.nfault
          (if stepNfaultLow s g d then PinSt.low else PinSt.high)
          (if stepNfaultLow s g d then 0 else s.pins.vios.voltage) := by
  show pinSetOr ((stepDrive _ _ _ _ _ _).2.nfault)
      (if stepNfaultLow s g d then PinSt.low else PinSt.high)
      (if stepNfaultLow s g d then 0 else s.pins.vios.voltage) = _
  rw [(stepDrive_keeps _ _ _ _ _ _).2.2.2.2.1]

/-- C1 (amended): after every simulation step the nFAULT pin is driven low
if and only if at least one of the six fault flags is set OR the
wake-request flag sampled by that step (after the wake-handler update,
before any mode-entry clearing) is set.  The hypotheses say the nFAULT pin
carries its initialization-time metadata (digital state, range 0-5.5 V) and
the VIO supply voltage is inside that range, which makes the step's nFAULT
pin write succeed. -/
theorem C1_fault_aggregation_amended (s : Sim) (g : Globals) (d : Nat)
    (hst : s.pins.nfault.state ≠ PinSt.analog)
    (hmin : s.pins.nfault.min_voltage = 0)
    (hmax : s.pins.nfault.max_voltage = 11/2)
    (hv0 : 0 ≤ s.pins.vios.voltage) (hv1 : s.pins.vios.voltage ≤ 11/2) :
    ((tcan1463q1_simulator_step s g d).1.pins.nfault.state = PinSt.low
      ↔ (fault_detector_has_any_fault
            (tcan1463q1_simulator_step s g d).1.fault_state = true
          ∨ stepSampledWakerq s d = true)) := by
  have hiff : (stepNfaultLow s g d = true) ↔
      (fault_detector_has_any_fault
          (tcan1463q1_simulator_step s g d).1.fault_state = true
        ∨ stepSampledWakerq s d = true) := by
    unfold stepNfaultLow fault_detector_get_nfault_state
    exact Iff.of_eq (Bool.or_eq_true _ _)
  rw [step_nfault_pin, ← hiff]
  by_cases hb : stepNfaultLow s g d = true
  · rw [hb]
    have hval : pin_validate_voltage s.pins.nfault 0 = true := by
      unfold pin_validate_voltage
      rw [if_pos ⟨hst, rfl⟩]
    constructor
    · exact fun _ => rfl
    · intro _
      show (pinSetOr s.pins.nfault PinSt.low 0).state = PinSt.low
      unfold pinSetOr pin_set_value
      rw [hval]
      rfl
  · have hb' : stepNfaultLow s g d = false := by
      revert hb
      cases stepNfaultLow s g d <;> simp
    rw [hb']
    have hstate : (pinSetOr s.pins.nfault PinSt.high
        s.pins.vios.voltage).state = PinSt.high := by
      unfold pinSetOr pin_set_value
      by_cases hz : s.pins.vios.voltage = 0
      · have hval : pin_validate_voltage s.pins.nfault
            s.pins.vios.voltage = true := by
          unfold pin_validate_voltage
          rw [if_pos ⟨hst, hz⟩]
        rw [hval]
        rfl
      · have hnr : ¬(s.pins.vios.voltage < s.pins.nfault.min_voltage
            ∨ s.pins.vios.voltage > s.pins.nfault.max_voltage) := by
          rintro (hlt | hgt)
          · rw [hmin] at hlt
            exact absurd hv0 (not_le.mpr hlt)
          · rw [hmax] at hgt
            exact absurd hv1 (not_le.mpr hgt)
        have hval : pin_validate_voltage s.pins.nfault
            s.pins.vios.voltage = true := by
          unfold pin_validate_voltage
          rw [if_neg (fun hc => hz hc.2), if_neg hnr]
        rw [hval]
        rfl
    constructor
    · intro hlo
      have hhl : PinSt.high = PinSt.low := hstate.symm.trans hlo
      exact absurd hhl (by decide)
    · intro hft
      exact absurd hft (by decide)

/-- C1 amended witness: the reset simulator satisfies the pin-metadata
hypotheses and the amended equivalence holds for its first step. -/
theorem C1_amended_witness :
    (simReset.pins.nfault.state ≠ PinSt.analog
      ∧ simReset.pins.nfault.min_voltage = 0
      ∧ simReset.pins.nfault.max_voltage = 11/2
      ∧ (0:ℚ) ≤ simReset.pins.vios.voltage
      ∧ simReset.pins.vios.voltage ≤ 11/2)
    ∧ ((tcan1463q1_simulator_step simReset globalsInit 1000).1.pins.nfault.state
          = PinSt.low
        ↔ (fault_detector_has_any_fault
              (tcan1463q1_simulator_step simReset globalsInit 1000).1.fault_state
              = true
            ∨ stepSampledWakerq simReset 1000 = true)) :=
  ⟨⟨by decide, by with_unfolding_all decide, by with_unfolding_all decide,
    by with_unfolding_all decide, by with_unfolding_all decide⟩,
   C1_fault_aggregation_amended simReset globalsInit 1000 (by decide)
     (by with_unfolding_all decide) (by with_unfolding_all decide)
     (by with_unfolding_all decide) (by with_unfolding_all decide)⟩

/-- C1 counterexample: after the fourth step of the run above the nFAULT
output pin is driven low although all six fault flags are clear — the step
also asserts nFAULT for a pending wake request, so "asserted iff at least
one of the six fault flags is set" is false on this reachable state. -/
theorem C1_counterexample :
    c1b4.1.pins.nfault.state = PinSt.low
    ∧ fault_detector_has_any_fault c1b4.1.fault_state = false := by
  with_unfolding_all decide

set_option maxRecDepth 4000 in
/-- C7: the identically initialized instance B, given the identical call
sequence, ends with its queryable bus-fault-streak flag SET when instance
A's steps are interleaved and CLEAR when run alone — stepping is not a
function of the instance's own state, refuting cross-instance isolation.
This evaluates the modelled code (with its process-wide statics) at the
failing interleaving. -/
theorem C7_hidden_static_state_bug :
    (tcan1463q1_simulator_get_flags c7iFinal.2.1).cbf = true
    ∧ (tcan1463q1_simulator_get_flags c7sFinal.1).cbf = false := by
  with_unfolding_all decide

end TCAN
